import Mathlib

/-!
Verification of the Jablotron alarm-panel protocol engine
(custom_components/jablotron100/jablotron.py).

The Python source is shallowly embedded: byte strings become `List Nat`
(one element per byte), Python slices become `pySlice`, the in-memory
state dictionary becomes a function `String → Option String`, and code
that can raise an exception returns an `Option`.  Each definition mirrors
one function or constant of the source file; the source location is given
in its doc comment.
-/

/-- Python slice `l[i:j]` for `j ≥ i` (and the empty list when `j ≤ i`,
as in Python). -/
def pySlice {α : Type} (l : List α) (i j : Nat) : List α :=
  (l.drop i).take (j - i)

/-- Embeds `Jablotron._bytes_to_int` (jablotron.py line 869): little-endian
`int.from_bytes`; the empty byte string decodes to 0. -/
def bytes_to_int (packet : List Nat) : Nat :=
  match packet with
  | [] => 0
  | b :: rest => b + 256 * bytes_to_int rest

/-- Embeds `Jablotron._int_to_bytes` (jablotron.py line 865):
`int.to_bytes(number, 1, ...)` produces one byte and raises `OverflowError`
(modelled as `none`) when the number does not fit. -/
def int_to_bytes (number : Nat) : Option (List Nat) :=
  if number < 256 then some [number] else none

/-- Decimal digit character for a digit value, `'9'` for out-of-range input
(only values below 10 are ever used). -/
def decDigitChar (d : Nat) : Char :=
  if d = 0 then '0'
  else if d = 1 then '1'
  else if d = 2 then '2'
  else if d = 3 then '3'
  else if d = 4 then '4'
  else if d = 5 then '5'
  else if d = 6 then '6'
  else if d = 7 then '7'
  else if d = 8 then '8'
  else '9'

/-- Fuel-indexed decimal rendering: most significant digit first. -/
def natToStrAux (fuel n : Nat) : List Char :=
  match fuel with
  | 0 => []
  | f + 1 =>
    if n < 10 then [decDigitChar n]
    else natToStrAux f (n / 10) ++ [decDigitChar (n % 10)]

/-- Decimal rendering of a natural number, as Python `"{}".format(n)`
produces it. -/
def natToStr (n : Nat) : String :=
  ⟨natToStrAux (n + 1) n⟩

/-- Home Assistant state constant (homeassistant.const). -/
def STATE_ALARM_DISARMED : String := "disarmed"

/-- Home Assistant state constant (homeassistant.const). -/
def STATE_ALARM_ARMED_AWAY : String := "armed_away"

/-- Home Assistant state constant (homeassistant.const). -/
def STATE_ALARM_ARMED_NIGHT : String := "armed_night"

/-- Home Assistant state constant (homeassistant.const). -/
def STATE_ALARM_ARMING : String := "arming"

/-- Home Assistant state constant (homeassistant.const). -/
def STATE_ALARM_PENDING : String := "pending"

/-- Home Assistant state constant (homeassistant.const). -/
def STATE_ALARM_TRIGGERED : String := "triggered"

/-- Home Assistant state constant (homeassistant.const). -/
def STATE_ON : String := "on"

/-- Home Assistant state constant (homeassistant.const). -/
def STATE_OFF : String := "off"

/-- Source constant, jablotron.py line 75. -/
def JABLOTRON_SECTION_PRIMARY_STATE_DISARMED : Nat := 1

/-- Source constant, jablotron.py line 76. -/
def JABLOTRON_SECTION_PRIMARY_STATE_ARMED_PARTIALLY : Nat := 2

/-- Source constant, jablotron.py line 77. -/
def JABLOTRON_SECTION_PRIMARY_STATE_ARMED_FULL : Nat := 3

/-- Source constant, jablotron.py line 78. -/
def JABLOTRON_SECTION_PRIMARY_STATE_TRIGGERED : Nat := 11

/-- Source constant, jablotron.py line 86. -/
def JABLOTRON_SECTION_SECONDARY_STATE_OK : Nat := 0

/-- Source constant, jablotron.py line 87. -/
def JABLOTRON_SECTION_SECONDARY_STATE_TRIGGERED : Nat := 1

/-- Source constant, jablotron.py line 88. -/
def JABLOTRON_SECTION_SECONDARY_STATE_PROBLEM : Nat := 2

/-- Source constant, jablotron.py line 89. -/
def JABLOTRON_SECTION_SECONDARY_STATE_PENDING : Nat := 4

/-- Source constant, jablotron.py line 90. -/
def JABLOTRON_SECTION_SECONDARY_STATE_ARMING : Nat := 8

/-- Source constant, jablotron.py line 99. -/
def JABLOTRON_SECTION_TERTIARY_STATE_OFF : Nat := 0

/-- Source constant, jablotron.py line 100. -/
def JABLOTRON_SECTION_TERTIARY_STATE_ON : Nat := 1

/-- Source constant, jablotron.py line 101. -/
def JABLOTRON_SECTION_TERTIARY_STATE_TRIGGERED : Nat := 17

/-- The dictionary returned by `Jablotron._parse_jablotron_section_state`. -/
structure SectionState where
  primary : Nat
  secondary : Nat
  tertiary : Nat
  deriving DecidableEq, Repr

/-- Embeds `Jablotron._parse_jablotron_section_state`
(jablotron.py lines 972-985). -/
def parse_jablotron_section_state (packet : List Nat) : SectionState :=
  let number := bytes_to_int (pySlice packet 0 1)
  let primary_state := number % 16
  let secondary_state := (number - primary_state) / 16
  { primary := primary_state
    secondary := secondary_state
    tertiary := bytes_to_int (pySlice packet 1 2) }

/-- Embeds `Jablotron._convert_jablotron_section_state_to_alarm_state`
(jablotron.py lines 943-966). -/
def convert_jablotron_section_state_to_alarm_state (state : SectionState) : String :=
  if state.primary = JABLOTRON_SECTION_PRIMARY_STATE_TRIGGERED
      ∨ state.secondary = JABLOTRON_SECTION_SECONDARY_STATE_TRIGGERED then
    STATE_ALARM_TRIGGERED
  else if state.secondary = JABLOTRON_SECTION_SECONDARY_STATE_ARMING then
    STATE_ALARM_ARMING
  else if state.secondary = JABLOTRON_SECTION_SECONDARY_STATE_PENDING then
    STATE_ALARM_PENDING
  else if state.primary = JABLOTRON_SECTION_PRIMARY_STATE_ARMED_FULL then
    (if state.tertiary = JABLOTRON_SECTION_TERTIARY_STATE_ON then
      STATE_ALARM_TRIGGERED
    else
      STATE_ALARM_ARMED_AWAY)
  else if state.primary = JABLOTRON_SECTION_PRIMARY_STATE_ARMED_PARTIALLY then
    STATE_ALARM_ARMED_NIGHT
  else
    STATE_ALARM_DISARMED

/-- Embeds `Jablotron._convert_jablotron_section_state_to_problem_sensor_state`
(jablotron.py lines 968-970). -/
def convert_jablotron_section_state_to_problem_sensor_state (state : SectionState) : String :=
  if state.secondary = JABLOTRON_SECTION_SECONDARY_STATE_PROBLEM then STATE_ON else STATE_OFF

/-- The triplet-to-alarm-state mapping exactly as claim C1 words it, with
numeric literals in the priority order of the claim.  To be compared with
the source mapping `convert_jablotron_section_state_to_alarm_state`. -/
def alarm_state_per_claim (state : SectionState) : String :=
  if state.primary = 11 ∨ state.secondary = 1 then "triggered"
  else if state.secondary = 8 then "arming"
  else if state.secondary = 4 then "pending"
  else if state.primary = 3 then (if state.tertiary = 1 then "triggered" else "armed_away")
  else if state.primary = 2 then "armed_night"
  else "disarmed"

/-- C1: for every decoded section triplet the source mapping
`convert_jablotron_section_state_to_alarm_state` agrees with the strict
priority order stated by the claim: primary 11 or secondary 1 give
triggered regardless of the other fields, then secondary 8 gives arming,
then secondary 4 gives pending, then primary 3 gives triggered when
tertiary is 1 and armed_away otherwise, then primary 2 gives armed_night,
and every remaining triplet, unrecognized primaries included, gives
disarmed. -/
theorem convert_section_state_follows_claim_priority (state : SectionState) :
    convert_jablotron_section_state_to_alarm_state state = alarm_state_per_claim state := rfl

/-- C2: decoding a 2-byte section record is total and deterministic, with
primary equal to the low nibble of the first byte, secondary equal to the
high nibble, and tertiary equal to the whole second byte; records shorter
than 2 bytes also decode without error, missing bytes reading as 0. -/
theorem parse_jablotron_section_state_spec (b0 b1 : Nat)
    (h0 : b0 < 256) (h1 : b1 < 256) :
    parse_jablotron_section_state [b0, b1]
        = { primary := b0 % 16, secondary := (b0 - b0 % 16) / 16, tertiary := b1 }
    ∧ parse_jablotron_section_state [b0]
        = { primary := b0 % 16, secondary := (b0 - b0 % 16) / 16, tertiary := 0 }
    ∧ parse_jablotron_section_state []
        = { primary := 0, secondary := 0, tertiary := 0 } :=
  ⟨rfl, rfl, rfl⟩

/-- Witness for C2 at the concrete record 0x2b 0x11: primary 11,
secondary 2, tertiary 17. -/
theorem parse_jablotron_section_state_spec_witness :
    parse_jablotron_section_state [0x2b, 0x11]
        = { primary := 0x2b % 16, secondary := (0x2b - 0x2b % 16) / 16, tertiary := 0x11 } :=
  (parse_jablotron_section_state_spec 0x2b 0x11 (by decide) (by decide)).1

/-- Result of one call of `Jablotron._update_state`: the new state map, the
ids whose subscribed entity was told to refresh, and the key-value pairs
handed to the persistence layer. -/
structure UpdateResult where
  states : String → Option String
  notified : List String
  stored : List (String × String)

/-- Embeds `Jablotron._update_state` (jablotron.py lines 620-630).
`entities` is the set of subscribed ids (`self._entities`).  When the id
already maps to the same value the method returns before notifying or
persisting anything. -/
def update_state (entities : String → Bool) (states : String → Option String)
    (id state : String) (store_state : Bool) : UpdateResult :=
  if states id = some state then
    { states := states, notified := [], stored := [] }
  else
    { states := fun x => if x = id then some state else states x
      notified := if entities id then [id] else []
      stored := if store_state then [(id, state)] else [] }

/-- C8: the state-store update is idempotent.  An update that does not
change the stored value is a no-op: the map, the notifications and the
persistence writes are untouched.  Consequently writing the same value
twice in a row notifies exactly once: the second write is always a no-op,
and the first write notifies exactly the subscribed id when it changes the
value. -/
theorem update_state_idempotent (entities : String → Bool)
    (states : String → Option String) (id state : String) (b b2 : Bool) :
    (states id = some state →
      update_state entities states id state b = { states := states, notified := [], stored := [] })
    ∧ update_state entities (update_state entities states id state b).states id state b2
        = { states := (update_state entities states id state b).states
            notified := []
            stored := [] }
    ∧ (states id ≠ some state → entities id = true →
        (update_state entities states id state b).notified = [id]
        ∧ (update_state entities states id state b).states id = some state) := by
  refine ⟨fun h => ?_, ?_, fun h he => ?_⟩
  · simp [update_state, h]
  · by_cases h : states id = some state
    · simp [update_state, h]
    · simp [update_state, h]
  · simp [update_state, h, he]

/-- Witness for C8: with one subscriber for id a and an empty store, the
first write of on notifies exactly once and the second identical write is
a no-op. -/
theorem update_state_idempotent_witness :
    ((update_state (fun _ => true) (fun _ => none) "a" "on" false).notified = ["a"]
      ∧ (update_state (fun _ => true) (fun _ => none) "a" "on" false).states "a" = some "on")
    ∧ update_state (fun _ => true)
        (update_state (fun _ => true) (fun _ => none) "a" "on" false).states "a" "on" false
      = { states := (update_state (fun _ => true) (fun _ => none) "a" "on" false).states
          notified := []
          stored := [] } :=
  ⟨(update_state_idempotent (fun _ => true) (fun _ => none) "a" "on" false false).2.2
      (by decide) rfl,
    (update_state_idempotent (fun _ => true) (fun _ => none) "a" "on" false false).2.1⟩

/-- Health bookkeeping of one iteration of the read loop, embedding
jablotron.py lines 549-561 of `Jablotron._read_packets`: the flag is
`self.last_update_success` and the second component counts the calls of
`self._update_all_entities()` made by this iteration (each call notifies
every subscribed entity once).  An empty read sets the flag to false and
notifies; a non-empty read notifies exactly when the flag was false. -/
def read_packets_health_step (last_update_success : Bool) (packet : List Nat) : Bool × Nat :=
  if packet = [] then
    (false, 1)
  else if last_update_success = false then
    (true, 1)
  else
    (last_update_success, 0)

/-- Iterating `read_packets_health_step` over a sequence of reads,
accumulating the notification count. -/
def read_packets_health_run (last : Bool) (packets : List (List Nat)) : Bool × Nat :=
  match packets with
  | [] => (last, 0)
  | p :: rest =>
    let step := read_packets_health_step last p
    let rest_result := read_packets_health_run step.1 rest
    (rest_result.1, step.2 + rest_result.2)

/-- Counterexample to C4: starting healthy, two consecutive empty reads
fire two notifications, not one.  The second empty read leaves the health
flag unchanged at false yet still notifies, so degraded notification is
level-triggered, not edge-triggered. -/
theorem read_packets_health_not_edge_triggered :
    read_packets_health_run true [[], []] = (false, 2)
    ∧ read_packets_health_step false [] = (false, 1)
    ∧ (2 : Nat) ≠ 1 := by decide

/-- C4 (amended): every empty read sets the health flag to false and fires
exactly one notification, even when health was already degraded; the first
non-empty read after a degradation fires exactly one restored notification;
a non-empty read while healthy fires none. -/
theorem read_packets_health_step_spec (last : Bool) (packet : List Nat) :
    (packet = [] → read_packets_health_step last packet = (false, 1))
    ∧ (packet ≠ [] → last = false → read_packets_health_step last packet = (true, 1))
    ∧ (packet ≠ [] → last = true → read_packets_health_step last packet = (true, 0)) := by
  refine ⟨fun h => ?_, fun h hl => ?_, fun h hl => ?_⟩
  · simp [read_packets_health_step, h]
  · simp [read_packets_health_step, h, hl]
  · simp [read_packets_health_step, h, hl]

/-- Witness for C4 (amended): a non-empty read right after a degradation
fires exactly one restored notification. -/
theorem read_packets_health_step_spec_witness :
    read_packets_health_step false [0x52] = (true, 1) :=
  (read_packets_health_step_spec false [0x52]).2.1 (by decide) rfl

/-- Value of a decimal digit character, as Python `int(c)` computes it for
a one-character string; any other character raises (`none`). -/
def dec_digit_value (c : Char) : Option Nat :=
  if c.isDigit then some (c.toNat - 48) else none

/-- Value of a hexadecimal digit character, as Python `int(s, 16)` reads
one character; any other character raises (`none`). -/
def hex_digit_value (c : Char) : Option Nat :=
  if c.isDigit then some (c.toNat - 48)
  else if 'a' ≤ c ∧ c ≤ 'f' then some (c.toNat - 87)
  else if 'A' ≤ c ∧ c ≤ 'F' then some (c.toNat - 55)
  else none

/-- One iteration of the loop of `Jablotron._create_code_packet`
(jablotron.py lines 788-799): `first_number` is `code[i+4:i+5]`,
`second_number` is `code[i:i+1]`; an empty `first_number` takes the
fallback branch `48 + int(second_number)` and otherwise the byte is
`int(first_number + second_number, 16)`.  `none` models the `ValueError`
raised by `int` on an empty or non-numeric string. -/
def code_byte (code : List Char) (i : Nat) : Option Nat :=
  let first_number := pySlice code (i + 4) (i + 5)
  let second_number := pySlice code i (i + 1)
  match first_number with
  | [] =>
    match second_number with
    | [] => none
    | c :: _ => (dec_digit_value c).map (fun v => 48 + v)
  | f :: _ =>
    match second_number with
    | [] => none
    | s :: _ =>
      match hex_digit_value f, hex_digit_value s with
      | some hv, some lv => some (16 * hv + lv)
      | _, _ => none

/-- Embeds `Jablotron._create_code_packet` (jablotron.py lines 784-801):
the fixed bytes 80 08 03 39 39 39 followed by the four code bytes, each
rendered through `Jablotron._int_to_bytes`; `none` models any exception
raised while building the four bytes. -/
def create_code_packet (code : String) : Option (List Nat) :=
  match code_byte code.data 0, code_byte code.data 1,
      code_byte code.data 2, code_byte code.data 3 with
  | some b0, some b1, some b2, some b3 =>
    match int_to_bytes b0, int_to_bytes b1, int_to_bytes b2, int_to_bytes b3 with
    | some p0, some p1, some p2, some p3 =>
      some ([0x80, 0x08, 0x03, 0x39, 0x39, 0x39] ++ p0 ++ p1 ++ p2 ++ p3)
    | _, _, _, _ => none
  | _, _, _, _ => none

/-- Counterexample to C9: the code packet for PIN 1234 has 10 bytes, the
fixed part of the packet before the 4 code bytes being 6 bytes long
(80 08 03 39 39 39), so the packet is not a 3-byte head followed by
4 code bytes, which would give 7 bytes. -/
theorem create_code_packet_not_three_byte_head :
    (create_code_packet "1234").map List.length = some 10 ∧ (10 : Nat) ≠ 3 + 4 := by decide

/-- A one-element Python slice `l[j:j+1]` inside the list is a singleton. -/
theorem pySlice_one_of_lt {α : Type} (l : List α) (j : Nat) (d : α) (h : j < l.length) :
    pySlice l j (j + 1) = [l.getD j d] := by
  induction l generalizing j with
  | nil => simp at h
  | cons a t ih =>
    cases j with
    | zero => simp [pySlice]
    | succ j =>
      have h' : j < t.length := by simpa using h
      have hih := ih j h'
      simp only [pySlice] at hih ⊢
      have e1 : j + 1 + 1 - (j + 1) = 1 := by omega
      have e2 : j + 1 - j = 1 := by omega
      rw [e1]
      rw [e2] at hih
      simpa using hih

/-- A one-element Python slice `l[j:j+1]` past the end of the list is
empty. -/
theorem pySlice_one_of_ge {α : Type} (l : List α) (j : Nat) (h : l.length ≤ j) :
    pySlice l j (j + 1) = [] := by
  simp [pySlice, List.drop_eq_nil_of_le h]

/-- An in-bounds `getD` is a member of the list. -/
theorem getD_mem_of_lt {α : Type} (l : List α) (j : Nat) (d : α) (h : j < l.length) :
    l.getD j d ∈ l := by
  rw [List.getD_eq_getElem?_getD, List.getElem?_eq_getElem h]
  exact List.getElem_mem h

/-- A decimal digit character has a code point between 48 and 57. -/
theorem char_isDigit_toNat {c : Char} (h : c.isDigit = true) :
    48 ≤ c.toNat ∧ c.toNat ≤ 57 := by
  simp only [Char.isDigit, ge_iff_le, Bool.and_eq_true, decide_eq_true_eq] at h
  obtain ⟨h1, h2⟩ := h
  exact ⟨UInt32.le_toNat_of_le (by norm_num [UInt32.size]) h1,
    UInt32.toNat_le_of_le (by norm_num [UInt32.size]) h2⟩

/-- The code byte as claim C9 describes it, after amendment: the digit at
position i+4 is the high nibble and the digit at position i the low
nibble, and when the code has no character at position i+4 the byte falls
back to 48 plus the digit at position i. -/
def claim_code_byte (l : List Char) (i : Nat) : Nat :=
  if i + 4 < l.length then
    16 * ((l.getD (i + 4) '0').toNat - 48) + ((l.getD i '0').toNat - 48)
  else
    48 + ((l.getD i '0').toNat - 48)

/-- A decimal digit character reads as its value through the hex parser. -/
theorem hex_digit_value_of_isDigit {c : Char} (h : c.isDigit = true) :
    hex_digit_value c = some (c.toNat - 48) := by
  simp [hex_digit_value, h]

/-- A decimal digit character reads as its value through `int`. -/
theorem dec_digit_value_of_isDigit {c : Char} (h : c.isDigit = true) :
    dec_digit_value c = some (c.toNat - 48) := by
  simp [dec_digit_value, h]

/-- On an all-digit code of length at least 4, each of the four loop
iterations of the code-packet builder produces exactly the byte of the
claim. -/
theorem code_byte_digits (l : List Char) (i : Nat)
    (hlen : 4 ≤ l.length) (hi : i < 4)
    (hdig : ∀ c ∈ l, c.isDigit = true) :
    code_byte l i = some (claim_code_byte l i) := by
  have hi' : i < l.length := by omega
  have hsec : pySlice l i (i + 1) = [l.getD i '0'] := pySlice_one_of_lt l i '0' hi'
  have hds : (l.getD i '0').isDigit = true := hdig _ (getD_mem_of_lt l i '0' hi')
  by_cases h4 : i + 4 < l.length
  · have hfst : pySlice l (i + 4) (i + 5) = [l.getD (i + 4) '0'] :=
      pySlice_one_of_lt l (i + 4) '0' h4
    have hdf : (l.getD (i + 4) '0').isDigit = true := hdig _ (getD_mem_of_lt l (i + 4) '0' h4)
    simp only [code_byte, hfst, hsec, hex_digit_value_of_isDigit hdf,
      hex_digit_value_of_isDigit hds]
    rw [claim_code_byte, if_pos h4]
  · have hfst : pySlice l (i + 4) (i + 5) = [] := pySlice_one_of_ge l (i + 4) (by omega)
    simp only [code_byte, hfst, hsec, dec_digit_value_of_isDigit hds]
    rw [claim_code_byte, if_neg h4]
    rfl

/-- Each claimed code byte fits in one byte when the code is all digits. -/
theorem claim_code_byte_lt (l : List Char) (i : Nat)
    (hlen : 4 ≤ l.length) (hi : i < 4)
    (hdig : ∀ c ∈ l, c.isDigit = true) :
    claim_code_byte l i < 256 := by
  have hi' : i < l.length := by omega
  have hds := char_isDigit_toNat (hdig _ (getD_mem_of_lt l i '0' hi'))
  unfold claim_code_byte
  by_cases h4 : i + 4 < l.length
  · have hdf := char_isDigit_toNat (hdig _ (getD_mem_of_lt l (i + 4) '0' h4))
    rw [if_pos h4]
    omega
  · rw [if_neg h4]
    omega

/-- On an all-digit code of length at least 4 the code packet is the fixed
6 bytes 80 08 03 39 39 39 followed by the four claimed code bytes. -/
theorem create_code_packet_digits (code : String)
    (hlen : 4 ≤ code.data.length)
    (hdig : ∀ c ∈ code.data, c.isDigit = true) :
    create_code_packet code
      = some ([0x80, 0x08, 0x03, 0x39, 0x39, 0x39]
          ++ [claim_code_byte code.data 0, claim_code_byte code.data 1,
              claim_code_byte code.data 2, claim_code_byte code.data 3]) := by
  have h0 := code_byte_digits code.data 0 hlen (by omega) hdig
  have h1 := code_byte_digits code.data 1 hlen (by omega) hdig
  have h2 := code_byte_digits code.data 2 hlen (by omega) hdig
  have h3 := code_byte_digits code.data 3 hlen (by omega) hdig
  have b0 := claim_code_byte_lt code.data 0 hlen (by omega) hdig
  have b1 := claim_code_byte_lt code.data 1 hlen (by omega) hdig
  have b2 := claim_code_byte_lt code.data 2 hlen (by omega) hdig
  have b3 := claim_code_byte_lt code.data 3 hlen (by omega) hdig
  rw [create_code_packet, h0, h1, h2, h3]
  simp [int_to_bytes, b0, b1, b2, b3]

/-- C9 (amended): the PIN code packet is a fixed 6-byte head
80 08 03 39 39 39 followed by 4 code bytes, where byte i combines the
digit at position i+4 (high nibble) with the digit at position i (low
nibble) and falls back to 48 plus the digit at position i when the code
has no character at position i+4; in particular the PIN 1234 gives code
byte 0 equal to 0x31. -/
theorem create_code_packet_head_and_code_bytes (code : String)
    (hlen : 4 ≤ code.data.length)
    (hdig : ∀ c ∈ code.data, c.isDigit = true) :
    create_code_packet code
      = some ([0x80, 0x08, 0x03, 0x39, 0x39, 0x39]
          ++ [claim_code_byte code.data 0, claim_code_byte code.data 1,
              claim_code_byte code.data 2, claim_code_byte code.data 3]) :=
  create_code_packet_digits code hlen hdig

/-- Witness for C9 (amended) at PIN 1234: the packet is the 6 fixed bytes
followed by 31 32 33 34; code byte 0 is 0x31. -/
theorem create_code_packet_head_and_code_bytes_witness :
    create_code_packet "1234"
      = some [0x80, 0x08, 0x03, 0x39, 0x39, 0x39, 0x31, 0x32, 0x33, 0x34] := by
  have h := create_code_packet_head_and_code_bytes "1234" (by decide) (by decide)
  rw [h]
  decide

/-- C10: on every code of 4 to 8 decimal digits the packet builder
succeeds and returns exactly 10 bytes, while the 3-digit code 123 makes
it raise (the fourth loop iteration calls `int` on an empty slice). -/
theorem create_code_packet_total_on_4_to_8_digits :
    (∀ code : String, (∀ c ∈ code.data, c.isDigit = true) →
        4 ≤ code.data.length → code.data.length ≤ 8 →
        ∃ p, create_code_packet code = some p ∧ p.length = 10)
    ∧ create_code_packet "123" = none := by
  constructor
  · intro code hd h4 _
    exact ⟨_, create_code_packet_digits code h4 hd, by simp⟩
  · decide

/-- Witness for C10 at PIN 1234: the builder returns a 10-byte packet. -/
theorem create_code_packet_total_witness :
    ∃ p, create_code_packet "1234" = some p ∧ p.length = 10 :=
  create_code_packet_total_on_4_to_8_digits.1 "1234" (by decide) (by decide) (by decide)

/-- Embeds `Jablotron._convert_jablotron_device_state_to_state`
(jablotron.py lines 839-863).  Python integer arithmetic is exact, so the
candidate state values live in `Int` (the band corrections are negative);
the observed state byte is compared against the four candidates with exact
equality only. -/
def convert_jablotron_device_state_to_state (packet : List Nat)
    (device_number : Nat) : Option String :=
  let state : Int := (bytes_to_int (pySlice packet 3 4) : Int)
  let high_device_number_offset : Int :=
    if device_number ≤ 36 then 0
    else if device_number ≤ 96 then -64
    else -128
  let device_states_offset : Int := ((device_number : Int) + high_device_number_offset) * 4 + 104
  let on_state := device_states_offset
  let on_state_2 := device_states_offset + 1
  let off_state := device_states_offset + 2
  let off_state_2 := device_states_offset + 3
  if state = off_state ∨ state = off_state_2 then some STATE_OFF
  else if state = on_state ∨ state = on_state_2 then some STATE_ON
  else none

/-- The observed device state byte: the byte at fixed offset 3 of the
device-state packet, as claim C6 describes it. -/
def device_state_byte (packet : List Nat) : Int :=
  (bytes_to_int (pySlice packet 3 4) : Int)

/-- The candidate base value of claim C6: additive correction 0 for
device numbers up to 36, -64 up to 96, -128 above, then
(number + correction) * 4 + 104. -/
def device_base_value (device_number : Nat) : Int :=
  ((device_number : Int) +
      (if device_number ≤ 36 then 0
        else if device_number ≤ 96 then -64
        else -128)) * 4 + 104

/-- C6: for every device-state packet and device number, the on/off
classification returns on exactly when the state byte equals the base
value or base + 1, off exactly when it equals base + 2 or base + 3, and
the unrecognized result `none` for every other state byte; the match is
exact, with no tolerance. -/
theorem convert_device_state_exact_match (packet : List Nat) (device_number : Nat) :
    (convert_jablotron_device_state_to_state packet device_number = some STATE_ON
      ↔ (device_state_byte packet = device_base_value device_number
          ∨ device_state_byte packet = device_base_value device_number + 1))
    ∧ (convert_jablotron_device_state_to_state packet device_number = some STATE_OFF
      ↔ (device_state_byte packet = device_base_value device_number + 2
          ∨ device_state_byte packet = device_base_value device_number + 3))
    ∧ (convert_jablotron_device_state_to_state packet device_number = none
      ↔ ¬(device_state_byte packet = device_base_value device_number
          ∨ device_state_byte packet = device_base_value device_number + 1
          ∨ device_state_byte packet = device_base_value device_number + 2
          ∨ device_state_byte packet = device_base_value device_number + 3)) := by
  set st := device_state_byte packet with hst
  set B := device_base_value device_number with hB
  have hcv : convert_jablotron_device_state_to_state packet device_number
      = (if st = B + 2 ∨ st = B + 3 then some STATE_OFF
          else if st = B ∨ st = B + 1 then some STATE_ON
          else none) := rfl
  rw [hcv]
  refine And.intro (Iff.intro (fun h => ?_) (fun h => ?_))
    (And.intro (Iff.intro (fun h => ?_) (fun h => ?_))
      (Iff.intro (fun h => ?_) (fun h => ?_)))
  · by_cases h1 : st = B + 2 ∨ st = B + 3
    · rw [if_pos h1] at h
      exact absurd h (by simp [STATE_ON, STATE_OFF])
    · by_cases h2 : st = B ∨ st = B + 1
      · exact h2
      · rw [if_neg h1, if_neg h2] at h
        exact absurd h (by simp)
  · rw [if_neg (by omega), if_pos h]
  · by_cases h1 : st = B + 2 ∨ st = B + 3
    · exact h1
    · by_cases h2 : st = B ∨ st = B + 1
      · rw [if_neg h1, if_pos h2] at h
        exact absurd h (by simp [STATE_ON, STATE_OFF])
      · rw [if_neg h1, if_neg h2] at h
        exact absurd h (by simp)
  · rw [if_pos h]
  · by_cases h1 : st = B + 2 ∨ st = B + 3
    · rw [if_pos h1] at h
      exact absurd h (by simp)
    · by_cases h2 : st = B ∨ st = B + 1
      · rw [if_neg h1, if_pos h2] at h
        exact absurd h (by simp)
      · omega
  · rw [if_neg (by omega), if_neg (by omega)]

/-- Reads a digit list back into a number, most significant digit first;
the left inverse used to prove `natToStr` injective. -/
def strToNatAux (acc : Nat) (l : List Char) : Nat :=
  match l with
  | [] => acc
  | c :: rest => strToNatAux (acc * 10 + (c.toNat - 48)) rest

/-- Reading a concatenation reads the two parts in sequence. -/
theorem strToNatAux_append (l1 l2 : List Char) (acc : Nat) :
    strToNatAux acc (l1 ++ l2) = strToNatAux (strToNatAux acc l1) l2 := by
  induction l1 generalizing acc with
  | nil => rfl
  | cons c t ih =>
    show strToNatAux (acc * 10 + (c.toNat - 48)) (t ++ l2)
        = strToNatAux (strToNatAux (acc * 10 + (c.toNat - 48)) t) l2
    exact ih (acc * 10 + (c.toNat - 48))

/-- Code point of a rendered digit. -/
theorem decDigitChar_toNat {d : Nat} (h : d < 10) : (decDigitChar d).toNat = 48 + d := by
  unfold decDigitChar
  split_ifs with h0 h1 h2 h3 h4 h5 h6 h7 h8
  · subst h0; decide
  · subst h1; decide
  · subst h2; decide
  · subst h3; decide
  · subst h4; decide
  · subst h5; decide
  · subst h6; decide
  · subst h7; decide
  · subst h8; decide
  · have h9 : d = 9 := by omega
    subst h9; decide

/-- Every rendered digit is a decimal digit character. -/
theorem decDigitChar_isDigit (d : Nat) : (decDigitChar d).isDigit = true := by
  unfold decDigitChar
  split_ifs <;> decide

/-- Reading back a rendered number recovers the number. -/
theorem natToStrAux_spec : ∀ fuel n acc, n < fuel →
    strToNatAux acc (natToStrAux fuel n) = acc * 10 ^ (natToStrAux fuel n).length + n := by
  intro fuel
  induction fuel with
  | zero => intro n acc h; omega
  | succ f ih =>
    intro n acc h
    by_cases h10 : n < 10
    · have e : natToStrAux (f + 1) n = [decDigitChar n] := by rw [natToStrAux, if_pos h10]
      rw [e]
      show acc * 10 + ((decDigitChar n).toNat - 48) = acc * 10 ^ [decDigitChar n].length + n
      rw [decDigitChar_toNat h10]
      have hl : [decDigitChar n].length = 1 := rfl
      rw [hl, pow_one]
      omega
    · have e : natToStrAux (f + 1) n = natToStrAux f (n / 10) ++ [decDigitChar (n % 10)] := by
        rw [natToStrAux, if_neg h10]
      rw [e, strToNatAux_append]
      have hdiv : n / 10 < f := by omega
      rw [ih (n / 10) acc hdiv]
      show (acc * 10 ^ (natToStrAux f (n / 10)).length + n / 10) * 10
            + ((decDigitChar (n % 10)).toNat - 48)
          = acc * 10 ^ (natToStrAux f (n / 10) ++ [decDigitChar (n % 10)]).length + n
      rw [decDigitChar_toNat (Nat.mod_lt n (by omega))]
      have hlen : (natToStrAux f (n / 10) ++ [decDigitChar (n % 10)]).length
          = (natToStrAux f (n / 10)).length + 1 := by simp
      rw [hlen, pow_succ, ← mul_assoc]
      omega

/-- The decimal rendering is injective. -/
theorem natToStr_inj {m n : Nat} (h : natToStr m = natToStr n) : m = n := by
  have hd : natToStrAux (m + 1) m = natToStrAux (n + 1) n := congrArg String.data h
  have hm := natToStrAux_spec (m + 1) m 0 (by omega)
  have hn := natToStrAux_spec (n + 1) n 0 (by omega)
  rw [hd] at hm
  omega

/-- Every character of a rendered number is a decimal digit. -/
theorem natToStrAux_digits : ∀ fuel n c, c ∈ natToStrAux fuel n → c.isDigit = true := by
  intro fuel
  induction fuel with
  | zero => intro n c hc; simp [natToStrAux] at hc
  | succ f ih =>
    intro n c hc
    by_cases h10 : n < 10
    · have e : natToStrAux (f + 1) n = [decDigitChar n] := by rw [natToStrAux, if_pos h10]
      rw [e, List.mem_singleton] at hc
      subst hc
      exact decDigitChar_isDigit n
    · have e : natToStrAux (f + 1) n = natToStrAux f (n / 10) ++ [decDigitChar (n % 10)] := by
        rw [natToStrAux, if_neg h10]
      rw [e, List.mem_append, List.mem_singleton] at hc
      rcases hc with hc | hc
      · exact ih _ _ hc
      · subst hc
        exact decDigitChar_isDigit _

/-- Every character of `natToStr n` is a decimal digit. -/
theorem natToStr_digits (n : Nat) (c : Char) (hc : c ∈ (natToStr n).data) :
    c.isDigit = true :=
  natToStrAux_digits (n + 1) n c hc

/-- Two strings with equal character data are equal. -/
theorem string_ext {a b : String} (h : a.data = b.data) : a = b :=
  congrArg String.mk h

/-- Appending a fixed head keeps the decimal rendering injective. -/
theorem append_natToStr_inj (p : String) {m n : Nat}
    (h : p ++ natToStr m = p ++ natToStr n) : m = n := by
  apply natToStr_inj
  apply string_ext
  have hd := congrArg String.data h
  rw [String.data_append, String.data_append] at hd
  exact List.append_cancel_left hd

/-- Embeds `Jablotron._create_section_alarm_id` (jablotron.py line 888). -/
def create_section_alarm_id (sec : Nat) : String :=
  "section_" ++ natToStr sec

/-- Embeds `Jablotron._create_section_problem_sensor_id`
(jablotron.py line 896). -/
def create_section_problem_sensor_id (sec : Nat) : String :=
  "section_problem_sensor_" ++ natToStr sec

/-- Embeds `Jablotron._create_device_sensor_id` (jablotron.py line 911). -/
def create_device_sensor_id (number : Nat) : String :=
  "device_sensor_" ++ natToStr number

/-- Embeds `Jablotron._create_device_problem_sensor_id`
(jablotron.py line 919). -/
def create_device_problem_sensor_id (number : Nat) : String :=
  "device_problem_sensor_" ++ natToStr number

/-- Embeds `Jablotron._create_lan_connection_id` (jablotron.py line 927). -/
def create_lan_connection_id : String := "lan"

/-- Distinct sections get distinct alarm ids. -/
theorem create_section_alarm_id_inj {s s' : Nat} (h : s ≠ s') :
    create_section_alarm_id s ≠ create_section_alarm_id s' :=
  fun he => h (append_natToStr_inj _ he)

/-- Distinct sections get distinct problem-sensor ids. -/
theorem create_section_problem_sensor_id_inj {s s' : Nat} (h : s ≠ s') :
    create_section_problem_sensor_id s ≠ create_section_problem_sensor_id s' :=
  fun he => h (append_natToStr_inj _ he)

/-- Distinct devices get distinct sensor ids. -/
theorem create_device_sensor_id_inj {m n : Nat} (h : m ≠ n) :
    create_device_sensor_id m ≠ create_device_sensor_id n :=
  fun he => h (append_natToStr_inj _ he)

/-- A section alarm id never equals a section problem-sensor id: after the
common head, the alarm id continues with a digit and the problem-sensor id
with the letter p. -/
theorem alarm_id_ne_problem_id (s s' : Nat) :
    create_section_alarm_id s ≠ create_section_problem_sensor_id s' := by
  intro h
  have hd := congrArg String.data h
  rw [create_section_alarm_id, create_section_problem_sensor_id,
    String.data_append, String.data_append] at hd
  have hsplit : ("section_problem_sensor_" : String).data
      = ("section_" : String).data ++ ("problem_sensor_" : String).data := by decide
  rw [hsplit, List.append_assoc] at hd
  have h2 : (natToStr s).data = ("problem_sensor_" : String).data ++ (natToStr s').data :=
    List.append_cancel_left hd
  have hp : 'p' ∈ (natToStr s).data := by
    rw [h2]
    exact List.mem_append_left _ (by decide)
  exact absurd (natToStr_digits s 'p' hp) (by decide)

/-- Modelled from the spec: `MAX_SECTIONS` is imported from const.py, a
file of this repository that is not among the sources; the spec only
speaks of a hard maximum section count bounding the 1-based contiguous
section indices.  The integration defines it as 15. -/
def MAX_SECTIONS : Nat := 15

/-- Embeds `Jablotron._parse_sections_states_packet` (jablotron.py lines
819-833) as a recursion over the remaining section budget: slot `sec` is
`packet[sec*2 : sec*2+2]`; the scan stops at the first sentinel slot 07 00
or after the hard maximum number of sections, whichever comes first.
Python dicts preserve insertion order, so the result is the ordered list
of (section, slot) pairs. -/
def parse_sections_states_packet_from (packet : List Nat) (sec fuel : Nat) :
    List (Nat × List Nat) :=
  match fuel with
  | 0 => []
  | f + 1 =>
    if pySlice packet (sec * 2) (sec * 2 + 2) = [0x07, 0x00] then []
    else (sec, pySlice packet (sec * 2) (sec * 2 + 2))
        :: parse_sections_states_packet_from packet (sec + 1) f

/-- The scan of `Jablotron._parse_sections_states_packet` starting at
section 1 with the `MAX_SECTIONS` budget. -/
def parse_sections_states_packet (packet : List Nat) : List (Nat × List Nat) :=
  parse_sections_states_packet_from packet 1 MAX_SECTIONS

/-- One loop iteration of `Jablotron._parse_section_states_packet`
(jablotron.py lines 666-684): always update the section alarm state;
update the section problem-sensor state only when the secondary state is
ok or problem. -/
def section_state_step (entities : String → Bool) (states : String → Option String)
    (sec : Nat) (section_packet : List Nat) : String → Option String :=
  let section_state := parse_jablotron_section_state section_packet
  let states1 := (update_state entities states (create_section_alarm_id sec)
    (convert_jablotron_section_state_to_alarm_state section_state) false).states
  if section_state.secondary = JABLOTRON_SECTION_SECONDARY_STATE_OK
      ∨ section_state.secondary = JABLOTRON_SECTION_SECONDARY_STATE_PROBLEM then
    (update_state entities states1 (create_section_problem_sensor_id sec)
      (convert_jablotron_section_state_to_problem_sensor_state section_state) false).states
  else states1

/-- Embeds `Jablotron._parse_section_states_packet` (jablotron.py lines
663-684): fold the per-section update over the parsed slots. -/
def parse_section_states_packet (entities : String → Bool)
    (states : String → Option String) (packet : List Nat) : String → Option String :=
  (parse_sections_states_packet packet).foldl
    (fun st p => section_state_step entities st p.1 p.2) states

/-- After an update the updated id holds the written value. -/
theorem update_state_states_self (e : String → Bool) (st : String → Option String)
    (id v : String) (b : Bool) : (update_state e st id v b).states id = some v := by
  by_cases h : st id = some v
  · rw [update_state, if_pos h]
    exact h
  · rw [update_state, if_neg h]
    simp

/-- An update leaves every other id unchanged. -/
theorem update_state_states_other (e : String → Bool) (st : String → Option String)
    (id v : String) (b : Bool) {x : String} (hx : x ≠ id) :
    (update_state e st id v b).states x = st x := by
  by_cases h : st id = some v
  · rw [update_state, if_pos h]
  · rw [update_state, if_neg h]
    simp [hx]

/-- A section update touches only the two ids of its own section. -/
theorem section_state_step_other (e : String → Bool) (st : String → Option String)
    (sec : Nat) (sp : List Nat) {x : String}
    (h1 : x ≠ create_section_alarm_id sec)
    (h2 : x ≠ create_section_problem_sensor_id sec) :
    section_state_step e st sec sp x = st x := by
  unfold section_state_step
  split_ifs with h
  · rw [update_state_states_other _ _ _ _ _ h2, update_state_states_other _ _ _ _ _ h1]
  · exact update_state_states_other _ _ _ _ _ h1

/-- A section update always leaves the mapped alarm state at the alarm
id of its section. -/
theorem section_state_step_alarm (e : String → Bool) (st : String → Option String)
    (sec : Nat) (sp : List Nat) :
    section_state_step e st sec sp (create_section_alarm_id sec)
      = some (convert_jablotron_section_state_to_alarm_state
          (parse_jablotron_section_state sp)) := by
  unfold section_state_step
  split_ifs with h
  · rw [update_state_states_other _ _ _ _ _ (alarm_id_ne_problem_id sec sec)]
    exact update_state_states_self _ _ _ _ _
  · exact update_state_states_self _ _ _ _ _

/-- With secondary state ok or problem the section update writes the
problem-sensor value. -/
theorem section_state_step_problem_written (e : String → Bool)
    (st : String → Option String) (sec : Nat) (sp : List Nat)
    (h : (parse_jablotron_section_state sp).secondary = JABLOTRON_SECTION_SECONDARY_STATE_OK
      ∨ (parse_jablotron_section_state sp).secondary
          = JABLOTRON_SECTION_SECONDARY_STATE_PROBLEM) :
    section_state_step e st sec sp (create_section_problem_sensor_id sec)
      = some (convert_jablotron_section_state_to_problem_sensor_state
          (parse_jablotron_section_state sp)) := by
  unfold section_state_step
  rw [if_pos h]
  exact update_state_states_self _ _ _ _ _

/-- With any other secondary state the section update leaves the
problem-sensor id untouched. -/
theorem section_state_step_problem_skipped (e : String → Bool)
    (st : String → Option String) (sec : Nat) (sp : List Nat)
    (h : ¬((parse_jablotron_section_state sp).secondary = JABLOTRON_SECTION_SECONDARY_STATE_OK
      ∨ (parse_jablotron_section_state sp).secondary
          = JABLOTRON_SECTION_SECONDARY_STATE_PROBLEM)) :
    section_state_step e st sec sp (create_section_problem_sensor_id sec)
      = st (create_section_problem_sensor_id sec) := by
  unfold section_state_step
  rw [if_neg h]
  exact update_state_states_other _ _ _ _ _ (alarm_id_ne_problem_id sec sec).symm

/-- Folding section updates over sections whose ids all differ from `x`
leaves `x` unchanged. -/
theorem sections_fold_frame (e : String → Bool) :
    ∀ (l : List (Nat × List Nat)) (st : String → Option String) (x : String),
    (∀ p ∈ l, x ≠ create_section_alarm_id p.1 ∧ x ≠ create_section_problem_sensor_id p.1) →
    l.foldl (fun st p => section_state_step e st p.1 p.2) st x = st x := by
  intro l
  induction l with
  | nil => intro st x _; rfl
  | cons p t ih =>
    intro st x h
    have hp := h p (List.mem_cons_self p t)
    rw [List.foldl_cons, ih _ x (fun q hq => h q (List.mem_cons_of_mem _ hq))]
    exact section_state_step_other e st p.1 p.2 hp.1 hp.2

/-- Every parsed section index lies in the scanned window. -/
theorem parse_sections_from_bounds : ∀ (fuel : Nat) (packet : List Nat) (start s : Nat)
    (sp : List Nat), (s, sp) ∈ parse_sections_states_packet_from packet start fuel →
    start ≤ s ∧ s < start + fuel := by
  intro fuel
  induction fuel with
  | zero =>
    intro packet start s sp h
    simp [parse_sections_states_packet_from] at h
  | succ f ih =>
    intro packet start s sp h
    by_cases hs : pySlice packet (start * 2) (start * 2 + 2) = [0x07, 0x00]
    · rw [parse_sections_states_packet_from, if_pos hs] at h
      simp at h
    · rw [parse_sections_states_packet_from, if_neg hs] at h
      rcases List.mem_cons.mp h with he | ht
      · injection he with h1 h2
        omega
      · have := ih packet (start + 1) s sp ht
        omega

/-- Core lemma for C3: folding the per-section updates over a scan window
gives, for every parsed section, the mapped alarm state at its alarm id,
the problem-sensor value at its problem id when secondary is ok or
problem, and the untouched previous problem value otherwise. -/
theorem parse_sections_fold_spec : ∀ (fuel : Nat) (packet : List Nat) (start : Nat)
    (e : String → Bool) (st : String → Option String) (s : Nat) (sp : List Nat),
    (s, sp) ∈ parse_sections_states_packet_from packet start fuel →
    ((parse_sections_states_packet_from packet start fuel).foldl
        (fun st p => section_state_step e st p.1 p.2) st (create_section_alarm_id s)
      = some (convert_jablotron_section_state_to_alarm_state
          (parse_jablotron_section_state sp)))
    ∧ (((parse_jablotron_section_state sp).secondary = 0
          ∨ (parse_jablotron_section_state sp).secondary = 2) →
        (parse_sections_states_packet_from packet start fuel).foldl
            (fun st p => section_state_step e st p.1 p.2) st
            (create_section_problem_sensor_id s)
          = some (convert_jablotron_section_state_to_problem_sensor_state
              (parse_jablotron_section_state sp)))
    ∧ ((parse_jablotron_section_state sp).secondary ≠ 0 →
        (parse_jablotron_section_state sp).secondary ≠ 2 →
        (parse_sections_states_packet_from packet start fuel).foldl
            (fun st p => section_state_step e st p.1 p.2) st
            (create_section_problem_sensor_id s)
          = st (create_section_problem_sensor_id s)) := by
  intro fuel
  induction fuel with
  | zero =>
    intro packet start e st s sp hmem
    simp [parse_sections_states_packet_from] at hmem
  | succ f ih =>
    intro packet start e st s sp hmem
    by_cases hs : pySlice packet (start * 2) (start * 2 + 2) = [0x07, 0x00]
    · rw [parse_sections_states_packet_from, if_pos hs] at hmem
      simp at hmem
    · rw [parse_sections_states_packet_from, if_neg hs] at hmem
      rw [parse_sections_states_packet_from, if_neg hs, List.foldl_cons]
      rcases List.mem_cons.mp hmem with he | ht
      · injection he with h1 h2
        subst h1
        subst h2
        have hfar : ∀ q ∈ parse_sections_states_packet_from packet (s + 1) f, s ≠ q.1 := by
          intro q hq
          have hb := parse_sections_from_bounds f packet (s + 1) q.1 q.2
            (by rw [Prod.mk.eta]; exact hq)
          omega
        refine ⟨?_, fun hsec => ?_, fun hn0 hn2 => ?_⟩
        · rw [sections_fold_frame e _ _ _
            (fun q hq => ⟨create_section_alarm_id_inj (hfar q hq),
              alarm_id_ne_problem_id s q.1⟩)]
          exact section_state_step_alarm e st s _
        · rw [sections_fold_frame e _ _ _
            (fun q hq => ⟨(alarm_id_ne_problem_id q.1 s).symm,
              create_section_problem_sensor_id_inj (hfar q hq)⟩)]
          exact section_state_step_problem_written e st s _ hsec
        · rw [sections_fold_frame e _ _ _
            (fun q hq => ⟨(alarm_id_ne_problem_id q.1 s).symm,
              create_section_problem_sensor_id_inj (hfar q hq)⟩)]
          exact section_state_step_problem_skipped e st s _
            (fun hc => hc.elim hn0 hn2)
      · have hres := ih packet (start + 1) e
          (section_state_step e st start (pySlice packet (start * 2) (start * 2 + 2))) s sp ht
        refine ⟨hres.1, hres.2.1, fun hn0 hn2 => ?_⟩
        rw [hres.2.2 hn0 hn2]
        have hb := parse_sections_from_bounds f packet (start + 1) s sp ht
        exact section_state_step_other e st start _
          (alarm_id_ne_problem_id start s).symm
          (create_section_problem_sensor_id_inj (by omega)).symm

/-- C3: when a sections-states packet is processed, for every parsed
section the alarm state is always updated to the mapped value, while the
stored problem-sensor state is written only when that section has
secondary state 0 (ok) or 2 (problem), in which case it is on exactly
when secondary is problem; for every other secondary state, triggered,
pending and arming included, the previously stored problem value is left
unchanged. -/
theorem parse_section_states_packet_problem_flag (e : String → Bool)
    (states : String → Option String) (packet : List Nat) (s : Nat) (sp : List Nat)
    (hmem : (s, sp) ∈ parse_sections_states_packet packet) :
    (parse_section_states_packet e states packet (create_section_alarm_id s)
      = some (convert_jablotron_section_state_to_alarm_state
          (parse_jablotron_section_state sp)))
    ∧ (((parse_jablotron_section_state sp).secondary = 0
          ∨ (parse_jablotron_section_state sp).secondary = 2) →
        parse_section_states_packet e states packet (create_section_problem_sensor_id s)
          = some (convert_jablotron_section_state_to_problem_sensor_state
              (parse_jablotron_section_state sp)))
    ∧ ((parse_jablotron_section_state sp).secondary ≠ 0 →
        (parse_jablotron_section_state sp).secondary ≠ 2 →
        parse_section_states_packet e states packet (create_section_problem_sensor_id s)
          = states (create_section_problem_sensor_id s))
    ∧ (convert_jablotron_section_state_to_problem_sensor_state
          (parse_jablotron_section_state sp) = STATE_ON
        ↔ (parse_jablotron_section_state sp).secondary = 2) := by
  have h := parse_sections_fold_spec MAX_SECTIONS packet 1 e states s sp hmem
  refine ⟨h.1, h.2.1, h.2.2, ?_⟩
  unfold convert_jablotron_section_state_to_problem_sensor_state
  split_ifs with hp
  · simp [hp, JABLOTRON_SECTION_SECONDARY_STATE_PROBLEM]
  · constructor
    · intro hc
      exact absurd hc (by simp [STATE_ON, STATE_OFF])
    · intro hc
      exact absurd hc hp

/-- Witness for C3 on the packet 51 22 13 00 07 00: section 1 decodes to
primary 3, secondary 1 (triggered): the alarm state becomes triggered and
the previously stored problem value on is kept. -/
theorem parse_section_states_packet_problem_flag_witness :
    parse_section_states_packet (fun _ => false)
        (fun x => if x = create_section_problem_sensor_id 1 then some "on" else none)
        [0x51, 0x22, 0x13, 0x00, 0x07, 0x00] (create_section_problem_sensor_id 1)
      = some "on" :=
  ((parse_section_states_packet_problem_flag (fun _ => false)
      (fun x => if x = create_section_problem_sensor_id 1 then some "on" else none)
      [0x51, 0x22, 0x13, 0x00, 0x07, 0x00] 1 [0x13, 0x00]
      (by decide)).2.2.1 (by decide) (by decide)).trans (by decide)

/-- Witness for C6: device 1 has base value (1 + 0) * 4 + 104 = 108, and
a packet whose state byte at offset 3 is 108 classifies as on. -/
theorem convert_device_state_exact_match_witness :
    convert_jablotron_device_state_to_state [0x55, 0x08, 0x00, 108] 1 = some STATE_ON :=
  (convert_device_state_exact_match [0x55, 0x08, 0x00, 108] 1).1.mpr (Or.inl (by decide))

/-- Fuel-indexed binary rendering, most significant bit first, as Python
`bin(n)[2:]` produces it. -/
def natToBinAux (fuel n : Nat) : List Char :=
  match fuel with
  | 0 => []
  | f + 1 =>
    if n < 2 then [decDigitChar n]
    else natToBinAux f (n / 2) ++ [decDigitChar (n % 2)]

/-- Binary rendering of a natural number without leading zeros
(`bin(0)[2:]` gives the single character 0). -/
def natToBin (n : Nat) : List Char :=
  natToBinAux (n + 1) n

/-- Embeds `Jablotron._hex_to_bin` (jablotron.py lines 873-879): decode
the bytes little-endian, render in binary, left-pad with zeros to 8 bits
per byte and reverse, so that position i of the result is the bit of
weight 2 to the i. -/
def hex_to_bin (hx : List Nat) : List Char :=
  let bin_string := natToBin (bytes_to_int hx)
  (List.replicate (hx.length * 8 - bin_string.length) '0' ++ bin_string).reverse

/-- The configuration the engine reads: `CONF_NUMBER_OF_DEVICES`, the
`CONF_DEVICES` type list and the detected central-unit model used by
`Jablotron._get_lan_connection_device_number`. -/
structure JablotronConfig where
  number_of_devices : Nat
  devices : List String
  central_unit_model : String

/-- Modelled from the spec: the device type constants `DEVICE_KEYPAD`,
`DEVICE_SIREN_OUTDOOR`, `DEVICE_OTHER` and `DEVICE_EMPTY` come from
const.py, which is not among the sources; the spec names the types
keypad, outdoor siren, other and empty.  The concrete string values are
placeholders; no theorem depends on them. -/
def DEVICE_KEYPAD : String := "keypad"

/-- Modelled from the spec: see `DEVICE_KEYPAD`. -/
def DEVICE_SIREN_OUTDOOR : String := "siren_outdoor"

/-- Modelled from the spec: see `DEVICE_KEYPAD`. -/
def DEVICE_OTHER : String := "other"

/-- Modelled from the spec: see `DEVICE_KEYPAD`. -/
def DEVICE_EMPTY : String := "empty"

/-- Embeds `Jablotron._get_device_type` (jablotron.py lines 644-645). -/
def get_device_type (config : JablotronConfig) (number : Nat) : String :=
  config.devices.getD (number - 1) DEVICE_EMPTY

/-- Embeds `Jablotron._is_device_ignored` (jablotron.py lines 647-654). -/
def is_device_ignored (config : JablotronConfig) (number : Nat) : Bool :=
  get_device_type config number == DEVICE_KEYPAD
    || get_device_type config number == DEVICE_OTHER
    || get_device_type config number == DEVICE_EMPTY

/-- Embeds `Jablotron._is_device_with_activity_sensor` (jablotron.py
lines 656-661). -/
def is_device_with_activity_sensor (config : JablotronConfig) (number : Nat) : Bool :=
  !(get_device_type config number == DEVICE_SIREN_OUTDOOR)

/-- Embeds `Jablotron._get_lan_connection_device_number` (jablotron.py
lines 755-759). -/
def get_lan_connection_device_number (model : String) : Option Nat :=
  if model = "JA-101K-LAN" then some 125 else none

/-- Embeds `Jablotron._parse_device_number_from_state_packet`
(jablotron.py lines 835-837): two bytes at offset 4, little-endian,
divided by 64. -/
def parse_device_number_from_state_packet (packet : List Nat) : Nat :=
  bytes_to_int (pySlice packet 4 6) / 64

/-- Embeds `Jablotron._is_device_state_packet` (jablotron.py lines
803-805): the wired head 55 08 or the wireless head 55 09. -/
def is_device_state_packet (pr : List Nat) : Bool :=
  pr == [0x55, 0x08] || pr == [0x55, 0x09]

/-- Source constant, jablotron.py line 68. -/
def JABLOTRON_PACKETS_DEVICE_ACTIVITY : List (List Nat) :=
  [[0x00], [0x01], [0x0a], [0x0c], [0x24], [0x3e], [0x80], [0x81],
    [0xa3], [0xa4], [0xa6], [0xbe]]

/-- Embeds `Jablotron._is_device_state_packet_for_activity`
(jablotron.py lines 807-809). -/
def is_device_state_packet_for_activity (packet : List Nat) : Bool :=
  JABLOTRON_PACKETS_DEVICE_ACTIVITY.contains (pySlice packet 2 3)

/-- Embeds `Jablotron._is_device_state_packet_for_sabotage`
(jablotron.py lines 811-813). -/
def is_device_state_packet_for_sabotage (packet : List Nat) : Bool :=
  bytes_to_int (pySlice packet 2 3) % 128 == 6

/-- Embeds `Jablotron._is_device_state_packet_for_fault`
(jablotron.py lines 815-817). -/
def is_device_state_packet_for_fault (packet : List Nat) : Bool :=
  bytes_to_int (pySlice packet 2 3) % 128 == 7

/-- Embeds `Jablotron._parse_device_state_packet` (jablotron.py lines
686-735), the state-map effect only (every early return that merely logs
leaves the map unchanged). -/
def parse_device_state_packet (config : JablotronConfig) (entities : String → Bool)
    (states : String → Option String) (packet : List Nat) : String → Option String :=
  let device_number := parse_device_number_from_state_packet packet
  if device_number = 0 then states
  else
    let is_lan : Bool :=
      get_lan_connection_device_number config.central_unit_model == some device_number
    if is_lan = false ∧ device_number > config.number_of_devices then states
    else if is_lan = false ∧ is_device_ignored config device_number = true then states
    else
      match convert_jablotron_device_state_to_state packet device_number with
      | none => states
      | some device_state =>
        if is_lan = true then
          (update_state entities states create_lan_connection_id
            (if device_state = STATE_OFF then STATE_ON else STATE_OFF) true).states
        else if is_device_with_activity_sensor config device_number = true
            ∧ is_device_state_packet_for_activity packet = true then
          (update_state entities states (create_device_sensor_id device_number)
            device_state false).states
        else if is_device_state_packet_for_sabotage packet = true
            ∨ is_device_state_packet_for_fault packet = true then
          (update_state entities states (create_device_problem_sensor_id device_number)
            device_state true).states
        else states

/-- One iteration of the bitfield loop of
`Jablotron._parse_devices_states_packet` (jablotron.py lines 746-753):
the device state is on when the one-character slice at position i of the
expanded bitfield is 1 and off otherwise, and only an off state is
written back. -/
def devices_states_bit_step (entities : String → Bool)
    (states : String → Option String) (bits : List Char) (i : Nat) :
    String → Option String :=
  if (if pySlice bits i (i + 1) = ['1'] then STATE_ON else STATE_OFF) = STATE_OFF then
    (update_state entities states (create_device_sensor_id i)
      (if pySlice bits i (i + 1) = ['1'] then STATE_ON else STATE_OFF) false).states
  else states

/-- The bitfield loop over device numbers 1..n. -/
def apply_devices_states_bits (entities : String → Bool) (n : Nat)
    (states : String → Option String) (bits : List Char) : String → Option String :=
  (List.range' 1 n).foldl (fun st i => devices_states_bit_step entities st bits i) states

/-- Embeds `Jablotron._parse_devices_states_packet` (jablotron.py lines
737-753): the bitfield region runs from offset 3 up to the embedded
length byte; a device-state packet found right after it is parsed first,
then the bitfield loop runs over all configured devices. -/
def parse_devices_states_packet (config : JablotronConfig) (entities : String → Bool)
    (states : String → Option String) (packet : List Nat) : String → Option String :=
  let triggered_device_start := 3 + bytes_to_int (pySlice packet 1 2) - 1
  let bits := hex_to_bin (pySlice packet 3 triggered_device_start)
  let states1 :=
    if is_device_state_packet
        (pySlice packet triggered_device_start (triggered_device_start + 2)) = true then
      parse_device_state_packet config entities states (packet.drop triggered_device_start)
    else states
  apply_devices_states_bits entities config.number_of_devices states1 bits

/-- A bit that reads as 1 makes the bitfield iteration a strict no-op. -/
theorem devices_states_bit_step_on (e : String → Bool) (st : String → Option String)
    (bits : List Char) (i : Nat) (hb : pySlice bits i (i + 1) = ['1']) :
    devices_states_bit_step e st bits i = st := by
  unfold devices_states_bit_step
  rw [if_pos hb, if_neg (show STATE_ON ≠ STATE_OFF by decide)]

/-- A bit that does not read as 1 writes off to the device sensor id. -/
theorem devices_states_bit_step_off_self (e : String → Bool)
    (st : String → Option String) (bits : List Char) (i : Nat)
    (hb : ¬ pySlice bits i (i + 1) = ['1']) :
    devices_states_bit_step e st bits i (create_device_sensor_id i) = some STATE_OFF := by
  unfold devices_states_bit_step
  rw [if_neg hb, if_pos rfl]
  exact update_state_states_self _ _ _ _ _

/-- The bitfield iteration touches only its own device sensor id. -/
theorem devices_states_bit_step_frame (e : String → Bool)
    (st : String → Option String) (bits : List Char) (i : Nat) {x : String}
    (hx : x ≠ create_device_sensor_id i) :
    devices_states_bit_step e st bits i x = st x := by
  by_cases hb : pySlice bits i (i + 1) = ['1']
  · rw [devices_states_bit_step_on e st bits i hb]
  · unfold devices_states_bit_step
    rw [if_neg hb, if_pos rfl]
    exact update_state_states_other _ _ _ _ _ hx

/-- Folding bitfield iterations over device numbers all different from
the id keeps the id unchanged. -/
theorem apply_bits_fold_frame (e : String → Bool) (bits : List Char) :
    ∀ (l : List Nat) (st : String → Option String) (x : String),
    (∀ j ∈ l, x ≠ create_device_sensor_id j) →
    l.foldl (fun st i => devices_states_bit_step e st bits i) st x = st x := by
  intro l
  induction l with
  | nil => intro st x _; rfl
  | cons j t ih =>
    intro st x h
    rw [List.foldl_cons, ih _ x (fun q hq => h q (List.mem_cons_of_mem _ hq))]
    exact devices_states_bit_step_frame e st bits j (h j (List.mem_cons_self j t))

/-- Core lemma for C7: over the window a..a+n-1 the bitfield loop leaves
a device with bit 1 unchanged and sets a device with any other bit to
off. -/
theorem apply_bits_spec (e : String → Bool) (bits : List Char) :
    ∀ (n a : Nat) (st : String → Option String) (i : Nat), a ≤ i → i < a + n →
    ((pySlice bits i (i + 1) = ['1'] →
        (List.range' a n).foldl (fun st j => devices_states_bit_step e st bits j) st
          (create_device_sensor_id i) = st (create_device_sensor_id i))
    ∧ (¬ pySlice bits i (i + 1) = ['1'] →
        (List.range' a n).foldl (fun st j => devices_states_bit_step e st bits j) st
          (create_device_sensor_id i) = some STATE_OFF)) := by
  intro n
  induction n with
  | zero => intro a st i h1 h2; omega
  | succ m ih =>
    intro a st i h1 h2
    rw [List.range'_succ, List.foldl_cons]
    by_cases hia : i = a
    · subst hia
      have hfar : ∀ j ∈ List.range' (i + 1) m,
          create_device_sensor_id i ≠ create_device_sensor_id j := by
        intro j hj
        obtain ⟨k, hk, rfl⟩ := List.mem_range'.mp hj
        exact create_device_sensor_id_inj (by omega)
      constructor
      · intro hb
        rw [devices_states_bit_step_on e st bits i hb]
        exact apply_bits_fold_frame e bits _ st _ hfar
      · intro hb
        rw [apply_bits_fold_frame e bits _ _ _ hfar]
        exact devices_states_bit_step_off_self e st bits i hb
    · have hres := ih (a + 1) (devices_states_bit_step e st bits a) i (by omega) (by omega)
      refine ⟨fun hb => ?_, hres.2⟩
      rw [hres.1 hb]
      exact devices_states_bit_step_frame e st bits a
        (create_device_sensor_id_inj hia)

/-- C7: processing an aggregate devices-states packet applies only
off-transitions from its embedded bitfield: a configured device whose bit
reads 0 ends at off, and a device whose bit reads 1 keeps its previously
stored sensor state whenever the packet embeds no device-state packet
after the bitfield (the embedded device-state packet, parsed before the
loop, is the only other writer). -/
theorem parse_devices_states_packet_off_only (config : JablotronConfig)
    (e : String → Bool) (states : String → Option String) (packet : List Nat)
    (i : Nat) (h1 : 1 ≤ i) (h2 : i ≤ config.number_of_devices) :
    (¬ pySlice (hex_to_bin (pySlice packet 3 (3 + bytes_to_int (pySlice packet 1 2) - 1)))
        i (i + 1) = ['1'] →
      parse_devices_states_packet config e states packet (create_device_sensor_id i)
        = some STATE_OFF)
    ∧ (pySlice (hex_to_bin (pySlice packet 3 (3 + bytes_to_int (pySlice packet 1 2) - 1)))
        i (i + 1) = ['1'] →
      is_device_state_packet (pySlice packet (3 + bytes_to_int (pySlice packet 1 2) - 1)
          (3 + bytes_to_int (pySlice packet 1 2) - 1 + 2)) = false →
      parse_devices_states_packet config e states packet (create_device_sensor_id i)
        = states (create_device_sensor_id i)) := by
  have hunf : parse_devices_states_packet config e states packet
      = apply_devices_states_bits e config.number_of_devices
          (if is_device_state_packet
              (pySlice packet (3 + bytes_to_int (pySlice packet 1 2) - 1)
                (3 + bytes_to_int (pySlice packet 1 2) - 1 + 2)) = true then
            parse_device_state_packet config e states
              (packet.drop (3 + bytes_to_int (pySlice packet 1 2) - 1))
          else states)
          (hex_to_bin (pySlice packet 3 (3 + bytes_to_int (pySlice packet 1 2) - 1))) := rfl
  constructor
  · intro hb
    rw [hunf]
    exact (apply_bits_spec e _ config.number_of_devices 1 _ i h1 (by omega)).2 hb
  · intro hb hemb
    have hneg : ¬ is_device_state_packet
        (pySlice packet (3 + bytes_to_int (pySlice packet 1 2) - 1)
          (3 + bytes_to_int (pySlice packet 1 2) - 1 + 2)) = true := by
      rw [hemb]
      exact Bool.false_ne_true
    rw [hunf, if_neg hneg]
    exact (apply_bits_spec e _ config.number_of_devices 1 states i h1 (by omega)).1 hb

/-- Witness for C7 on the packet d8 02 00 02 with two configured devices:
the length byte 02 puts the bitfield in packet[3:4] = 02, whose expansion
gives bit 1 the value 1, and nothing follows the bitfield; device 1 keeps
its previously stored on state. -/
theorem parse_devices_states_packet_off_only_witness :
    parse_devices_states_packet ⟨2, ["motion", "motion"], "JA-106K"⟩ (fun _ => false)
        (fun x => if x = create_device_sensor_id 1 then some STATE_ON else none)
        [0xd8, 0x02, 0x00, 0x02] (create_device_sensor_id 1)
      = some STATE_ON :=
  ((parse_devices_states_packet_off_only ⟨2, ["motion", "motion"], "JA-106K"⟩
      (fun _ => false)
      (fun x => if x = create_device_sensor_id 1 then some STATE_ON else none)
      [0xd8, 0x02, 0x00, 0x02] 1 (by decide) (by decide)).2
    (by decide) (by decide)).trans (by decide)

/-- Embeds the `int_packets` dictionary of
`Jablotron.modify_alarm_control_panel_section_state` (jablotron.py lines
297-301); looking up any other state raises `KeyError` (`none`). -/
def int_packets (state : String) : Option Nat :=
  if state = STATE_ALARM_DISARMED then some 143
  else if state = STATE_ALARM_ARMED_AWAY then some 159
  else if state = STATE_ALARM_ARMED_NIGHT then some 175
  else none

/-- Embeds `Jablotron.modify_alarm_control_panel_section_state`
(jablotron.py lines 293-305), returning the packet handed to
`self._send_packet`: the PIN code packet, then the fixed bytes 80 02 0d,
then the single state byte `int_packets[state] + section`. -/
def modify_alarm_control_panel_section_state (code : String) (state : String)
    (sec : Nat) : Option (List Nat) :=
  match int_packets state with
  | none => none
  | some base =>
    match int_to_bytes (base + sec) with
    | none => none
    | some state_packet =>
      match create_code_packet code with
      | none => none
      | some code_packet => some (code_packet ++ [0x80, 0x02, 0x0d] ++ state_packet)

/-- Decoder of the state byte as claim C5 describes it: find the unique
base code among 143, 159 and 175 whose section range contains the byte and
subtract it to recover the section. -/
def decode_section_command_byte (b : Nat) : Option (String × Nat) :=
  if 143 + 1 ≤ b ∧ b ≤ 143 + MAX_SECTIONS then some (STATE_ALARM_DISARMED, b - 143)
  else if 159 + 1 ≤ b ∧ b ≤ 159 + MAX_SECTIONS then some (STATE_ALARM_ARMED_AWAY, b - 159)
  else if 175 + 1 ≤ b ∧ b ≤ 175 + MAX_SECTIONS then some (STATE_ALARM_ARMED_NIGHT, b - 175)
  else none

/-- C5: the three base codes are pairwise distinct, and for every section
in 1..MAX_SECTIONS and every target state the encoded state byte
base + section fits in one byte, decodes back to the original
(state, section) pair, and is appended as a single byte after the PIN
packet and the fixed command bytes 80 02 0d. -/
theorem modify_section_state_round_trip :
    (int_packets STATE_ALARM_DISARMED = some 143
      ∧ int_packets STATE_ALARM_ARMED_AWAY = some 159
      ∧ int_packets STATE_ALARM_ARMED_NIGHT = some 175
      ∧ (143 : Nat) ≠ 159 ∧ (143 : Nat) ≠ 175 ∧ (159 : Nat) ≠ 175)
    ∧ ∀ (state : String) (sec base : Nat), 1 ≤ sec → sec ≤ MAX_SECTIONS →
        int_packets state = some base →
        int_to_bytes (base + sec) = some [base + sec]
        ∧ decode_section_command_byte (base + sec) = some (state, sec)
        ∧ ∀ (code : String) (code_packet : List Nat),
            create_code_packet code = some code_packet →
            modify_alarm_control_panel_section_state code state sec
              = some (code_packet ++ [0x80, 0x02, 0x0d] ++ [base + sec]) := by
  refine ⟨by decide, fun state sec base h1 h2 hb => ?_⟩
  have hsec15 : sec ≤ 15 := h2
  unfold int_packets at hb
  split_ifs at hb with hd ha hn
  · subst hd
    have hb' : base = 143 := by injection hb with h; omega
    subst hb'
    have hlt : 143 + sec < 256 := by omega
    have e1 : int_packets STATE_ALARM_DISARMED = some 143 := by decide
    refine ⟨by simp [int_to_bytes, hlt], ?_, fun code code_packet hc => ?_⟩
    · unfold decode_section_command_byte MAX_SECTIONS
      rw [if_pos (by omega)]
      have e : 143 + sec - 143 = sec := by omega
      rw [e]
    · simp [modify_alarm_control_panel_section_state, e1, int_to_bytes, hlt, hc]
  · subst ha
    have hb' : base = 159 := by injection hb with h; omega
    subst hb'
    have hlt : 159 + sec < 256 := by omega
    have e1 : int_packets STATE_ALARM_ARMED_AWAY = some 159 := by decide
    refine ⟨by simp [int_to_bytes, hlt], ?_, fun code code_packet hc => ?_⟩
    · unfold decode_section_command_byte MAX_SECTIONS
      rw [if_neg (by omega), if_pos (by omega)]
      have e : 159 + sec - 159 = sec := by omega
      rw [e]
    · simp [modify_alarm_control_panel_section_state, e1, int_to_bytes, hlt, hc]
  · subst hn
    have hb' : base = 175 := by injection hb with h; omega
    subst hb'
    have hlt : 175 + sec < 256 := by omega
    have e1 : int_packets STATE_ALARM_ARMED_NIGHT = some 175 := by decide
    refine ⟨by simp [int_to_bytes, hlt], ?_, fun code code_packet hc => ?_⟩
    · unfold decode_section_command_byte MAX_SECTIONS
      rw [if_neg (by omega), if_neg (by omega), if_pos (by omega)]
      have e : 175 + sec - 175 = sec := by omega
      rw [e]
    · simp [modify_alarm_control_panel_section_state, e1, int_to_bytes, hlt, hc]

/-- Witness for C5: disarming section 2 with PIN 1234 sends the code
packet, the command bytes 80 02 0d and the byte 145 = 143 + 2, and 145
decodes back to (disarmed, 2). -/
theorem modify_section_state_round_trip_witness :
    decode_section_command_byte (143 + 2) = some (STATE_ALARM_DISARMED, 2)
    ∧ modify_alarm_control_panel_section_state "1234" STATE_ALARM_DISARMED 2
        = some ([0x80, 0x08, 0x03, 0x39, 0x39, 0x39, 0x31, 0x32, 0x33, 0x34]
            ++ [0x80, 0x02, 0x0d] ++ [143 + 2]) :=
  ⟨(modify_section_state_round_trip.2 STATE_ALARM_DISARMED 2 143
      (by decide) (by decide) (by decide)).2.1,
    (modify_section_state_round_trip.2 STATE_ALARM_DISARMED 2 143
      (by decide) (by decide) (by decide)).2.2 "1234"
      [0x80, 0x08, 0x03, 0x39, 0x39, 0x39, 0x31, 0x32, 0x33, 0x34] (by decide)⟩
